import Mathlib

/-!
Verification development for the T5 orchestration core of `src/t5/t5_model.rs`
(rust-bert). The tensor backend, the attention stacks (`T5Stack`), and the
`LayerState` internals are external collaborators treated as opaque: tensors are
embedded as a symbolic expression type recording exactly the operations this
file applies to them, and each stack is an arbitrary function with the call
signature used by this file. Rust `unwrap` panics are modelled as explicit
`Panic` errors propagated through `Except` (a panic unwinds to the caller of
the entry point, exactly like an error value in this pure model).
-/

namespace RustBert

/-- Symbolic scalar expressions built by the orchestration code. The only
scalar built in `t5_model.rs` is `model_dim.powf(-0.5)`, i.e. `d ^ (-0.5)`. -/
inductive TScalar where
  | powNegHalf (d : Int)
deriving DecidableEq

/-- Opaque tensors, embedded symbolically: `raw` stands for an arbitrary
externally produced tensor; `linear x w b` is tch's `x.linear(&w, b)`
(`x · wᵀ + b`, with `b = none` meaning no bias); `mulScalar x c` is the
elementwise multiplication `x * c` by a scalar. -/
inductive Tensor where
  | raw (id : Nat)
  | linear (x w : Tensor) (bias : Option Tensor)
  | mulScalar (x : Tensor) (c : TScalar)

/-- Modelled from the spec: `LayerState` (from `t5::attention`, not in scope)
is an opaque per-layer cache entry holding previously computed key and value
projections. -/
structure LayerState where
  prev_key : Tensor
  prev_value : Tensor

/-- Per-layer decoder cache: one `(self_attention, cross_attention)` pair of
optional `LayerState`s per decoder layer
(`Vec<(Option<LayerState>, Option<LayerState>)>`). -/
abbrev LayerCache := List (Option LayerState × Option LayerState)

/-- Modelled from the spec: the error type of the crate (`RustBertError`,
declared outside this file). Only the `ValueError` variant is raised by the
code under verification. -/
inductive RustBertError where
  | ValueError (msg : String)
deriving DecidableEq

/-- A Rust panic raised inside the orchestration code: `unwrap()` on an `Err`
result of a stack call, or `unwrap()` on a `None` option. -/
inductive Panic where
  | unwrapErr (e : RustBertError)
  | unwrapNone
deriving DecidableEq

/-- The shared embedding table (`nn::Embedding`): the orchestration code only
reads its weight matrix `ws` for the logits projection. -/
structure Embedding where
  ws : Tensor

/-- Modelled from the spec: output bundle of a `T5Stack` forward call
(`hidden_state`, optional per-layer hidden states / attention weights,
optional next cache), as consumed by `t5_model.rs`. -/
structure T5StackOutput where
  hidden_state : Tensor
  all_hidden_states : Option (List Tensor)
  all_attentions : Option (List Tensor)
  next_cache : Option LayerCache

/-- Modelled from the spec: a `T5Stack` (from `t5::encoder`, out of scope
beyond its call contract) is an opaque forward function
`forward_t(input_ids?, attention_mask?, encoder_hidden_state?,
encoder_attention_mask?, input_embeds?, embeddings, layer_states?, train)
-> Result<T5StackOutput, RustBertError>`. -/
structure T5Stack where
  forward_t : Option Tensor → Option Tensor → Option Tensor → Option Tensor →
      Option Tensor → Embedding → Option LayerCache → Bool →
      Except RustBertError T5StackOutput

/-- `T5Model`: encoder stack, decoder stack and shared embeddings. -/
structure T5Model where
  encoder : T5Stack
  decoder : T5Stack
  embeddings : Embedding

/-- `T5ModelOutput`: result bundle of a base-model or generation-head forward
pass. -/
structure T5ModelOutput where
  decoder_output : Tensor
  encoder_hidden_state : Option Tensor
  next_cache : Option LayerCache
  all_decoder_hidden_states : Option (List Tensor)
  all_decoder_attentions : Option (List Tensor)
  all_encoder_hidden_states : Option (List Tensor)
  all_encoder_attentions : Option (List Tensor)

/-- `T5Model::forward_t`. The Rust function returns a plain `T5ModelOutput`
and `unwrap()`s the two stack results (panicking on `Err`) as well as the
computed encoder hidden state inside `unwrap_or_else` (panicking on `None`);
those panics appear here as `Except.error` values. -/
def T5Model.forward_t (self : T5Model)
    (input_ids attention_mask encoder_outputs decoder_input_ids
     decoder_attention_mask input_embeds decoder_input_embeds : Option Tensor)
    (old_layer_states : Option LayerCache) (train : Bool) :
    Except Panic T5ModelOutput :=
  let calc_step : Except Panic (Option T5StackOutput) :=
    if encoder_outputs.isNone then
      match self.encoder.forward_t input_ids attention_mask none none
          input_embeds self.embeddings none train with
      | Except.ok o => Except.ok (some o)
      | Except.error e => Except.error (Panic.unwrapErr e)
    else Except.ok none
  match calc_step with
  | Except.error e => Except.error e
  | Except.ok calc_encoder_outputs =>
    let (calc_hidden_states, all_encoder_hidden_states, all_encoder_attentions) :=
      match calc_encoder_outputs with
      | some o => (some o.hidden_state, o.all_hidden_states, o.all_attentions)
      | none => (none, none, none)
    let encoder_output_opt : Option Tensor :=
      match encoder_outputs with
      | some t => some t
      | none => calc_hidden_states
    match encoder_output_opt with
    | none => Except.error Panic.unwrapNone
    | some encoder_output =>
      match self.decoder.forward_t decoder_input_ids decoder_attention_mask
          (some encoder_output) attention_mask decoder_input_embeds
          self.embeddings old_layer_states train with
      | Except.error e => Except.error (Panic.unwrapErr e)
      | Except.ok decoder_output =>
        Except.ok
          { decoder_output := decoder_output.hidden_state
            encoder_hidden_state := calc_hidden_states
            next_cache := decoder_output.next_cache
            all_decoder_hidden_states := decoder_output.all_hidden_states
            all_decoder_attentions := decoder_output.all_attentions
            all_encoder_hidden_states := all_encoder_hidden_states
            all_encoder_attentions := all_encoder_attentions }

/-- `T5ForConditionalGeneration`: base model plus the model dimension kept for
logits scaling. In the source `model_dim` is `config.d_model as f64`; the value
is always the exact integer `d_model` and is only ever used inside
`powf(-0.5)`, so it is kept as the integer it came from. -/
structure T5ForConditionalGeneration where
  base_model : T5Model
  model_dim : Int

/-- `T5Config` (scalar fields; the task-specific preset sub-structures are
config-file boilerplate never read by the orchestration code and are
omitted). `f64` fields are modelled as rationals, `i64` fields as integers. -/
structure T5Config where
  dropout_rate : Rat
  d_model : Int
  d_ff : Int
  d_kv : Int
  decoder_start_token_id : Option Int
  eos_token_id : Option Int
  initializer_factor : Rat
  is_encoder_decoder : Option Bool
  layer_norm_epsilon : Rat
  n_positions : Int
  num_heads : Int
  num_layers : Int
  output_past : Option Bool
  pad_token_id : Option Int
  relative_attention_num_buckets : Int
  vocab_size : Int

/-- `T5ForConditionalGeneration::new`: the stack/embedding construction from a
variable store is opaque weight loading, so the fully built `T5Model` is taken
as given; `model_dim` is set from `config.d_model` exactly as in the source. -/
def T5ForConditionalGeneration.new (base_model : T5Model) (config : T5Config) :
    T5ForConditionalGeneration :=
  { base_model := base_model, model_dim := config.d_model }

/-- `T5ForConditionalGeneration::forward_t`: run the base model, then replace
`decoder_output` by
`decoder_output.linear(&embeddings.ws, None) * model_dim.powf(-0.5)`. -/
def T5ForConditionalGeneration.forward_t (self : T5ForConditionalGeneration)
    (input_ids attention_mask encoder_outputs decoder_input_ids
     decoder_attention_mask input_embeds decoder_input_embeds : Option Tensor)
    (old_layer_states : Option LayerCache) (train : Bool) :
    Except Panic T5ModelOutput :=
  match self.base_model.forward_t input_ids attention_mask encoder_outputs
      decoder_input_ids decoder_attention_mask input_embeds
      decoder_input_embeds old_layer_states train with
  | Except.error e => Except.error e
  | Except.ok base_model_output =>
    let lm_logits := Tensor.mulScalar
      (Tensor.linear base_model_output.decoder_output
        self.base_model.embeddings.ws none)
      (TScalar.powNegHalf self.model_dim)
    Except.ok { base_model_output with decoder_output := lm_logits }

/-- `T5ForConditionalGeneration::encode`: run only the encoder stack over the
input ids (no cache, `train = false`) and return its hidden state; the stack
result is `unwrap()`ed (panic on `Err`). -/
def T5ForConditionalGeneration.encode (self : T5ForConditionalGeneration)
    (input_ids : Tensor) (attention_mask : Option Tensor) :
    Except Panic Tensor :=
  match self.base_model.encoder.forward_t (some input_ids) attention_mask none
      none none self.base_model.embeddings none false with
  | Except.error e => Except.error (Panic.unwrapErr e)
  | Except.ok o => Except.ok o.hidden_state

/-- Modelled from the spec: the `Cache` tagged union from
`pipelines::generation_utils` (not in scope): the absent-cache variant `None`,
this model's variant `T5Cache`, and other models' variants (`GPT2Cache`,
`BARTCache`) that are incompatible with T5. -/
inductive Cache where
  | GPT2Cache (states : Option (List Tensor))
  | BARTCache (states : Option LayerCache)
  | T5Cache (states : Option LayerCache)
  | None

/-- Modelled from the spec: `LMModelOutput` from
`pipelines::generation_utils`: logits plus the cache handed back to the
generic decoding loop. -/
structure LMModelOutput where
  lm_logits : Tensor
  cache : Cache

/-- A failure of the generation adapter: either an error value actually
returned (`Err(...)`), or a panic propagating out of the call. -/
inductive LMError where
  | returned (e : RustBertError)
  | panicked (p : Panic)

/-- `<T5ForConditionalGeneration as LMHeadModel>::forward_t`: dispatch on the
cache variant, run the base model, compute the logits exactly as the
conditional-generation head does, and wrap the next cache back into
`Cache::T5Cache`. The `_token_type_ids`, `_position_ids` and `_input_embeds`
arguments are unused, as in the source. -/
def LMHeadModel.forward_t (self : T5ForConditionalGeneration)
    (input_ids : Option Tensor) (cache : Cache) (attention_mask : Option Tensor)
    (_token_type_ids _position_ids _input_embeds : Option Tensor)
    (encoder_outputs : Option Tensor) (decoder_input_ids : Option Tensor)
    (train : Bool) : Except LMError LMModelOutput :=
  let base_model_result : Except LMError T5ModelOutput :=
    match cache with
    | Cache.T5Cache cached_layer_states =>
      match self.base_model.forward_t input_ids attention_mask encoder_outputs
          decoder_input_ids none none none cached_layer_states train with
      | Except.ok o => Except.ok o
      | Except.error p => Except.error (LMError.panicked p)
    | Cache.None =>
      match self.base_model.forward_t input_ids attention_mask encoder_outputs
          decoder_input_ids none none none none train with
      | Except.ok o => Except.ok o
      | Except.error p => Except.error (LMError.panicked p)
    | _ => Except.error (LMError.returned
        (RustBertError.ValueError "Cache not compatible with T5 Model"))
  match base_model_result with
  | Except.error e => Except.error e
  | Except.ok base_model_output =>
    let lm_logits := Tensor.mulScalar
      (Tensor.linear base_model_output.decoder_output
        self.base_model.embeddings.ws none)
      (TScalar.powNegHalf self.model_dim)
    Except.ok { lm_logits := lm_logits
                cache := Cache.T5Cache base_model_output.next_cache }

/-- Helper: what the generation adapter makes of a base-model result — wrap a
panic, or project the decoder output to logits and re-tag the next cache. -/
def lmWrap (self : T5ForConditionalGeneration)
    (r : Except Panic T5ModelOutput) : Except LMError LMModelOutput :=
  match r with
  | Except.error p => Except.error (LMError.panicked p)
  | Except.ok o =>
    Except.ok { lm_logits := Tensor.mulScalar
                  (Tensor.linear o.decoder_output
                    self.base_model.embeddings.ws none)
                  (TScalar.powNegHalf self.model_dim)
                cache := Cache.T5Cache o.next_cache }

/-- Test fixture: a stack returning a fixed output on every call. -/
def constStack (o : T5StackOutput) : T5Stack :=
  ⟨fun _ _ _ _ _ _ _ _ => Except.ok o⟩

/-- Test fixture: a stack failing with a fixed error on every call. -/
def errStack (e : RustBertError) : T5Stack :=
  ⟨fun _ _ _ _ _ _ _ _ => Except.error e⟩

/-- Test fixture: an encoder stack output. -/
def encOutFix : T5StackOutput :=
  { hidden_state := Tensor.raw 1
    all_hidden_states := none
    all_attentions := none
    next_cache := none }

/-- Test fixture: a decoder stack output carrying a next cache. -/
def decOutFix : T5StackOutput :=
  { hidden_state := Tensor.raw 2
    all_hidden_states := none
    all_attentions := none
    next_cache := some [] }

/-- Test fixture: a conditional-generation model with constant stacks. -/
def testModel : T5ForConditionalGeneration :=
  { base_model :=
      { encoder := constStack encOutFix
        decoder := constStack decOutFix
        embeddings := { ws := Tensor.raw 0 } }
    model_dim := 512 }

/-- Test fixture: a model whose stacks always fail. -/
def errModel : T5ForConditionalGeneration :=
  { base_model :=
      { encoder := errStack (RustBertError.ValueError "stack failure")
        decoder := errStack (RustBertError.ValueError "stack failure")
        embeddings := { ws := Tensor.raw 0 } }
    model_dim := 512 }

/-- Test fixture: the base-model output produced by `testModel` on all-`none`
arguments. -/
def baseOutFix : T5ModelOutput :=
  { decoder_output := Tensor.raw 2
    encoder_hidden_state := some (Tensor.raw 1)
    next_cache := some []
    all_decoder_hidden_states := none
    all_decoder_attentions := none
    all_encoder_hidden_states := none
    all_encoder_attentions := none }

/-- Test fixture: the base-model output produced by `testModel` when a
precomputed encoder output is supplied (so `encoder_hidden_state` is
absent). -/
def baseOutFixPre : T5ModelOutput :=
  { baseOutFix with encoder_hidden_state := none }

/-- Test fixture: the logits tensor produced by `testModel`. -/
def logitsFix : Tensor :=
  Tensor.mulScalar (Tensor.linear (Tensor.raw 2) (Tensor.raw 0) none)
    (TScalar.powNegHalf 512)

/-- Test fixture: the conditional-generation output of `testModel` on
all-`none` arguments. -/
def cgOutFix : T5ModelOutput :=
  { baseOutFix with decoder_output := logitsFix }

/-- Test fixture: the adapter output of `testModel` on all-`none` arguments. -/
def lmOutFix : LMModelOutput :=
  { lm_logits := logitsFix
    cache := Cache.T5Cache (some []) }

/-- Characterization of `T5Model::forward_t` when a precomputed encoder
output is supplied: the encoder stack is skipped and the output's
`encoder_hidden_state` is `none`. -/
theorem t5Model_forward_some (self : T5Model)
    (input_ids attention_mask decoder_input_ids decoder_attention_mask
     input_embeds decoder_input_embeds : Option Tensor) (t : Tensor)
    (old_layer_states : Option LayerCache) (train : Bool) :
    self.forward_t input_ids attention_mask (some t) decoder_input_ids
      decoder_attention_mask input_embeds decoder_input_embeds
      old_layer_states train
      = match self.decoder.forward_t decoder_input_ids decoder_attention_mask
          (some t) attention_mask decoder_input_embeds self.embeddings
          old_layer_states train with
        | Except.error e => Except.error (Panic.unwrapErr e)
        | Except.ok d =>
          Except.ok
            { decoder_output := d.hidden_state
              encoder_hidden_state := none
              next_cache := d.next_cache
              all_decoder_hidden_states := d.all_hidden_states
              all_decoder_attentions := d.all_attentions
              all_encoder_hidden_states := none
              all_encoder_attentions := none } := rfl

/-- Characterization of `T5Model::forward_t` when no precomputed encoder
output is supplied: the encoder stack runs once, its hidden state feeds the
decoder and is returned in `encoder_hidden_state`. -/
theorem t5Model_forward_none (self : T5Model)
    (input_ids attention_mask decoder_input_ids decoder_attention_mask
     input_embeds decoder_input_embeds : Option Tensor)
    (old_layer_states : Option LayerCache) (train : Bool) :
    self.forward_t input_ids attention_mask none decoder_input_ids
      decoder_attention_mask input_embeds decoder_input_embeds
      old_layer_states train
      = match self.encoder.forward_t input_ids attention_mask none none
          input_embeds self.embeddings none train with
        | Except.error e => Except.error (Panic.unwrapErr e)
        | Except.ok o =>
          match self.decoder.forward_t decoder_input_ids
              decoder_attention_mask (some o.hidden_state) attention_mask
              decoder_input_embeds self.embeddings old_layer_states train with
          | Except.error e => Except.error (Panic.unwrapErr e)
          | Except.ok d =>
            Except.ok
              { decoder_output := d.hidden_state
                encoder_hidden_state := some o.hidden_state
                next_cache := d.next_cache
                all_decoder_hidden_states := d.all_hidden_states
                all_decoder_attentions := d.all_attentions
                all_encoder_hidden_states := o.all_hidden_states
                all_encoder_attentions := o.all_attentions } := by
  unfold T5Model.forward_t
  cases self.encoder.forward_t input_ids attention_mask none none
      input_embeds self.embeddings none train with
  | error e => rfl
  | ok o => rfl

/-- Characterization of the conditional-generation head: it maps the
logits projection over the base-model result. -/
theorem cgForward_eq (self : T5ForConditionalGeneration)
    (input_ids attention_mask encoder_outputs decoder_input_ids
     decoder_attention_mask input_embeds decoder_input_embeds : Option Tensor)
    (old_layer_states : Option LayerCache) (train : Bool) :
    self.forward_t input_ids attention_mask encoder_outputs decoder_input_ids
      decoder_attention_mask input_embeds decoder_input_embeds
      old_layer_states train
      = Except.map (fun b =>
          { b with decoder_output := (Tensor.mulScalar
              (Tensor.linear b.decoder_output self.base_model.embeddings.ws
                none)
              (TScalar.powNegHalf self.model_dim)) })
          (self.base_model.forward_t input_ids attention_mask encoder_outputs
            decoder_input_ids decoder_attention_mask input_embeds
            decoder_input_embeds old_layer_states train) := by
  unfold T5ForConditionalGeneration.forward_t
  cases self.base_model.forward_t input_ids attention_mask encoder_outputs
      decoder_input_ids decoder_attention_mask input_embeds
      decoder_input_embeds old_layer_states train with
  | error e => rfl
  | ok b => rfl

/-- Characterization of the generation adapter on this model's cache
variant. -/
theorem lmForward_t5cache_eq (self : T5ForConditionalGeneration)
    (input_ids attention_mask tti posi ie encoder_outputs
     decoder_input_ids : Option Tensor)
    (states : Option LayerCache) (train : Bool) :
    LMHeadModel.forward_t self input_ids (Cache.T5Cache states) attention_mask
      tti posi ie encoder_outputs decoder_input_ids train
      = lmWrap self (self.base_model.forward_t input_ids attention_mask
          encoder_outputs decoder_input_ids none none none states train) := by
  simp only [LMHeadModel.forward_t, lmWrap]
  cases hb : self.base_model.forward_t input_ids attention_mask
      encoder_outputs decoder_input_ids none none none states train with
  | error e => simp [hb]
  | ok o => simp [hb]

/-- Characterization of the generation adapter on the absent-cache
variant. -/
theorem lmForward_nonecache_eq (self : T5ForConditionalGeneration)
    (input_ids attention_mask tti posi ie encoder_outputs
     decoder_input_ids : Option Tensor) (train : Bool) :
    LMHeadModel.forward_t self input_ids Cache.None attention_mask
      tti posi ie encoder_outputs decoder_input_ids train
      = lmWrap self (self.base_model.forward_t input_ids attention_mask
          encoder_outputs decoder_input_ids none none none none train) := by
  simp only [LMHeadModel.forward_t, lmWrap]
  cases hb : self.base_model.forward_t input_ids attention_mask
      encoder_outputs decoder_input_ids none none none none train with
  | error e => simp [hb]
  | ok o => simp [hb]

/-- Characterization of the generation adapter on any other cache variant:
the incompatible-cache error. -/
theorem lmForward_incompat (self : T5ForConditionalGeneration)
    (input_ids attention_mask tti posi ie encoder_outputs
     decoder_input_ids : Option Tensor) (cache : Cache) (train : Bool)
    (h1 : ∀ states, cache ≠ Cache.T5Cache states) (h2 : cache ≠ Cache.None) :
    LMHeadModel.forward_t self input_ids cache attention_mask
      tti posi ie encoder_outputs decoder_input_ids train
      = Except.error (LMError.returned
          (RustBertError.ValueError "Cache not compatible with T5 Model")) := by
  cases cache with
  | T5Cache s => exact absurd rfl (h1 s)
  | None => exact absurd rfl h2
  | GPT2Cache s => rfl
  | BARTCache s => rfl

/-- C2: the Generation Adapter dispatches on the cache variant: with
`Cache::T5Cache(states)` the base model runs with `states` as the decoder's
incoming cache, with `Cache::None` it runs with an absent cache, and with any
other variant the call returns the `ValueError` "Cache not compatible with T5
Model" (determined by the variant alone, before any tensor computation). -/
theorem t5_lm_head_cache_dispatch (self : T5ForConditionalGeneration)
    (input_ids attention_mask tti posi ie encoder_outputs
     decoder_input_ids : Option Tensor) (train : Bool) :
    (∀ states, LMHeadModel.forward_t self input_ids (Cache.T5Cache states)
        attention_mask tti posi ie encoder_outputs decoder_input_ids train
        = lmWrap self (self.base_model.forward_t input_ids attention_mask
            encoder_outputs decoder_input_ids none none none states train))
    ∧ (LMHeadModel.forward_t self input_ids Cache.None attention_mask
        tti posi ie encoder_outputs decoder_input_ids train
        = lmWrap self (self.base_model.forward_t input_ids attention_mask
            encoder_outputs decoder_input_ids none none none none train))
    ∧ (∀ cache, (∀ states, cache ≠ Cache.T5Cache states) →
        cache ≠ Cache.None →
        LMHeadModel.forward_t self input_ids cache attention_mask
          tti posi ie encoder_outputs decoder_input_ids train
          = Except.error (LMError.returned (RustBertError.ValueError
              "Cache not compatible with T5 Model"))) :=
  ⟨fun states => lmForward_t5cache_eq self input_ids attention_mask tti posi
      ie encoder_outputs decoder_input_ids states train,
   lmForward_nonecache_eq self input_ids attention_mask tti posi ie
      encoder_outputs decoder_input_ids train,
   fun cache h1 h2 => lmForward_incompat self input_ids attention_mask tti
      posi ie encoder_outputs decoder_input_ids cache train h1 h2⟩

/-- Witness for C2: the adapter called on `testModel` with a `BARTCache`
returns the incompatible-cache error. -/
theorem t5_lm_head_cache_dispatch_witness :
    LMHeadModel.forward_t testModel none (Cache.BARTCache none) none none
      none none none none false
      = Except.error (LMError.returned (RustBertError.ValueError
          "Cache not compatible with T5 Model")) :=
  (t5_lm_head_cache_dispatch testModel none none none none none none none
      false).2.2 (Cache.BARTCache none)
    (fun _ h => Cache.noConfusion h) (fun h => Cache.noConfusion h)

/-- C5: every successful adapter call returns its next cache wrapped in the
`Cache::T5Cache` variant, holding exactly the base model's next cache for
this call. -/
theorem t5_lm_head_returns_t5cache (self : T5ForConditionalGeneration)
    (input_ids attention_mask tti posi ie encoder_outputs
     decoder_input_ids : Option Tensor) (cache : Cache) (train : Bool) :
    ∀ lmout, LMHeadModel.forward_t self input_ids cache attention_mask
        tti posi ie encoder_outputs decoder_input_ids train
        = Except.ok lmout →
      ∃ st base,
        (cache = Cache.T5Cache st ∨ (cache = Cache.None ∧ st = none))
        ∧ self.base_model.forward_t input_ids attention_mask encoder_outputs
            decoder_input_ids none none none st train = Except.ok base
        ∧ lmout.cache = Cache.T5Cache base.next_cache := by
  intro lmout h
  cases cache with
  | T5Cache states =>
    rw [lmForward_t5cache_eq] at h
    cases hb : self.base_model.forward_t input_ids attention_mask
        encoder_outputs decoder_input_ids none none none states train with
    | error e => rw [hb] at h; exact absurd h (by simp [lmWrap])
    | ok b =>
      rw [hb] at h
      simp only [lmWrap] at h
      refine ⟨states, b, Or.inl rfl, hb, ?_⟩
      cases h
      rfl
  | None =>
    rw [lmForward_nonecache_eq] at h
    cases hb : self.base_model.forward_t input_ids attention_mask
        encoder_outputs decoder_input_ids none none none none train with
    | error e => rw [hb] at h; exact absurd h (by simp [lmWrap])
    | ok b =>
      rw [hb] at h
      simp only [lmWrap] at h
      refine ⟨none, b, Or.inr ⟨rfl, rfl⟩, hb, ?_⟩
      cases h
      rfl
  | GPT2Cache states =>
    exact absurd h (by
      rw [lmForward_incompat self input_ids attention_mask tti posi ie
        encoder_outputs decoder_input_ids (Cache.GPT2Cache states) train
        (fun s hc => Cache.noConfusion hc) (fun hc => Cache.noConfusion hc)]
      simp)
  | BARTCache states =>
    exact absurd h (by
      rw [lmForward_incompat self input_ids attention_mask tti posi ie
        encoder_outputs decoder_input_ids (Cache.BARTCache states) train
        (fun s hc => Cache.noConfusion hc) (fun hc => Cache.noConfusion hc)]
      simp)

/-- Witness for C5: on `testModel` with the absent cache, the adapter
succeeds and its cache is the base model's next cache wrapped in
`Cache::T5Cache`. -/
theorem t5_lm_head_returns_t5cache_witness :
    ∃ st base,
      ((Cache.None : Cache) = Cache.T5Cache st
        ∨ ((Cache.None : Cache) = Cache.None ∧ st = none))
      ∧ testModel.base_model.forward_t none none none none none none none st
          false = Except.ok base
      ∧ lmOutFix.cache = Cache.T5Cache base.next_cache :=
  t5_lm_head_returns_t5cache testModel none none none none none none none
    Cache.None false lmOutFix rfl

/-- C7: the `token_type_ids`, `position_ids` and `input_embeds` arguments of
the Generation Adapter are unused: two calls agreeing on all other arguments
return identical results. -/
theorem t5_lm_head_unused_args (self : T5ForConditionalGeneration)
    (input_ids : Option Tensor) (cache : Cache)
    (attention_mask tt1 pi1 ie1 tt2 pi2 ie2 : Option Tensor)
    (encoder_outputs decoder_input_ids : Option Tensor) (train : Bool) :
    LMHeadModel.forward_t self input_ids cache attention_mask tt1 pi1 ie1
      encoder_outputs decoder_input_ids train
      = LMHeadModel.forward_t self input_ids cache attention_mask tt2 pi2 ie2
          encoder_outputs decoder_input_ids train := rfl

/-- C9: resolving the effective encoder output in `T5Model::forward_t` never
panics on `None`: every run either succeeds or fails by propagating a stack
error; the `unwrap` of the computed hidden state is unreachable on its `None`
branch. -/
theorem t5_model_unwrap_none_unreachable (self : T5Model)
    (input_ids attention_mask encoder_outputs decoder_input_ids
     decoder_attention_mask input_embeds decoder_input_embeds : Option Tensor)
    (old_layer_states : Option LayerCache) (train : Bool) :
    (∃ out, self.forward_t input_ids attention_mask encoder_outputs
        decoder_input_ids decoder_attention_mask input_embeds
        decoder_input_embeds old_layer_states train = Except.ok out)
    ∨ (∃ e, self.forward_t input_ids attention_mask encoder_outputs
        decoder_input_ids decoder_attention_mask input_embeds
        decoder_input_embeds old_layer_states train
          = Except.error (Panic.unwrapErr e)) := by
  cases encoder_outputs with
  | some t =>
    rw [t5Model_forward_some]
    cases self.decoder.forward_t decoder_input_ids decoder_attention_mask
        (some t) attention_mask decoder_input_embeds self.embeddings
        old_layer_states train with
    | error e => exact Or.inr ⟨e, rfl⟩
    | ok d => exact Or.inl ⟨_, rfl⟩
  | none =>
    cases henc : self.encoder.forward_t input_ids attention_mask none none
        input_embeds self.embeddings none train with
    | error e =>
      exact Or.inr ⟨e, by simp [t5Model_forward_none, henc]⟩
    | ok o =>
      cases hdec : self.decoder.forward_t decoder_input_ids
          decoder_attention_mask (some o.hidden_state) attention_mask
          decoder_input_embeds self.embeddings old_layer_states train with
      | error e =>
        exact Or.inr ⟨e, by simp [t5Model_forward_none, henc, hdec]⟩
      | ok d =>
        refine Or.inl ⟨?_, ?_⟩
        · exact
            { decoder_output := d.hidden_state
              encoder_hidden_state := some o.hidden_state
              next_cache := d.next_cache
              all_decoder_hidden_states := d.all_hidden_states
              all_decoder_attentions := d.all_attentions
              all_encoder_hidden_states := o.all_hidden_states
              all_encoder_attentions := o.all_attentions }
        · simp [t5Model_forward_none, henc, hdec]

/-- C10: the adapter treats `Cache::T5Cache(None)` and `Cache::None`
identically: both run the base model with an absent decoder cache and return
the same result. -/
theorem t5_lm_head_empty_t5cache_eq_none_cache
    (self : T5ForConditionalGeneration)
    (input_ids attention_mask tti posi ie encoder_outputs
     decoder_input_ids : Option Tensor) (train : Bool) :
    LMHeadModel.forward_t self input_ids (Cache.T5Cache none) attention_mask
      tti posi ie encoder_outputs decoder_input_ids train
      = LMHeadModel.forward_t self input_ids Cache.None attention_mask
          tti posi ie encoder_outputs decoder_input_ids train := rfl

/-- C1: on every successful forward pass of the Conditional-Generation Head
and of the Generation Adapter, the returned logits equal the base model's
decoder hidden state passed through `linear` against the shared embedding
weight with no bias, multiplied elementwise by `model_dim ^ (-0.5)`; and
`model_dim` is `config.d_model`. -/
theorem t5_logits_scaling_law (self : T5ForConditionalGeneration)
    (input_ids attention_mask encoder_outputs decoder_input_ids
     decoder_attention_mask input_embeds decoder_input_embeds : Option Tensor)
    (old_layer_states : Option LayerCache)
    (tti posi ie : Option Tensor) (cache : Cache) (train : Bool) :
    (∀ out, self.forward_t input_ids attention_mask encoder_outputs
        decoder_input_ids decoder_attention_mask input_embeds
        decoder_input_embeds old_layer_states train = Except.ok out →
      ∃ base, self.base_model.forward_t input_ids attention_mask
          encoder_outputs decoder_input_ids decoder_attention_mask
          input_embeds decoder_input_embeds old_layer_states train
          = Except.ok base
        ∧ out.decoder_output = Tensor.mulScalar
            (Tensor.linear base.decoder_output self.base_model.embeddings.ws
              none)
            (TScalar.powNegHalf self.model_dim))
    ∧ (∀ lmout, LMHeadModel.forward_t self input_ids cache attention_mask
        tti posi ie encoder_outputs decoder_input_ids train
        = Except.ok lmout →
      ∃ st base, self.base_model.forward_t input_ids attention_mask
          encoder_outputs decoder_input_ids none none none st train
          = Except.ok base
        ∧ lmout.lm_logits = Tensor.mulScalar
            (Tensor.linear base.decoder_output self.base_model.embeddings.ws
              none)
            (TScalar.powNegHalf self.model_dim))
    ∧ (∀ (bm : T5Model) (config : T5Config),
        (T5ForConditionalGeneration.new bm config).model_dim
          = config.d_model) := by
  refine ⟨?_, ?_, fun _ _ => rfl⟩
  · intro out h
    rw [cgForward_eq] at h
    cases hb : self.base_model.forward_t input_ids attention_mask
        encoder_outputs decoder_input_ids decoder_attention_mask input_embeds
        decoder_input_embeds old_layer_states train with
    | error e => rw [hb] at h; exact absurd h (by simp [Except.map])
    | ok b =>
      rw [hb] at h
      simp only [Except.map, Except.ok.injEq] at h
      exact ⟨b, rfl, by rw [← h]⟩
  · intro lmout h
    cases cache with
    | T5Cache states =>
      rw [lmForward_t5cache_eq] at h
      cases hb : self.base_model.forward_t input_ids attention_mask
          encoder_outputs decoder_input_ids none none none states train with
      | error e => rw [hb] at h; exact absurd h (by simp [lmWrap])
      | ok b =>
        rw [hb] at h
        simp only [lmWrap, Except.ok.injEq] at h
        exact ⟨states, b, hb, by rw [← h]⟩
    | None =>
      rw [lmForward_nonecache_eq] at h
      cases hb : self.base_model.forward_t input_ids attention_mask
          encoder_outputs decoder_input_ids none none none none train with
      | error e => rw [hb] at h; exact absurd h (by simp [lmWrap])
      | ok b =>
        rw [hb] at h
        simp only [lmWrap, Except.ok.injEq] at h
        exact ⟨none, b, hb, by rw [← h]⟩
    | GPT2Cache states =>
      exact absurd h (by
        rw [lmForward_incompat self input_ids attention_mask tti posi ie
          encoder_outputs decoder_input_ids (Cache.GPT2Cache states) train
          (fun _ hc => Cache.noConfusion hc) (fun hc => Cache.noConfusion hc)]
        simp)
    | BARTCache states =>
      exact absurd h (by
        rw [lmForward_incompat self input_ids attention_mask tti posi ie
          encoder_outputs decoder_input_ids (Cache.BARTCache states) train
          (fun _ hc => Cache.noConfusion hc) (fun hc => Cache.noConfusion hc)]
        simp)

/-- Witness for C1: on `testModel` both the head and the adapter succeed and
their logits are the projected, scaled decoder hidden state. -/
theorem t5_logits_scaling_law_witness :
    (∃ base, testModel.base_model.forward_t none none none none none none
        none none false = Except.ok base
      ∧ cgOutFix.decoder_output = Tensor.mulScalar
          (Tensor.linear base.decoder_output
            testModel.base_model.embeddings.ws none)
          (TScalar.powNegHalf testModel.model_dim))
    ∧ (∃ st base, testModel.base_model.forward_t none none none none none
        none none st false = Except.ok base
      ∧ lmOutFix.lm_logits = Tensor.mulScalar
          (Tensor.linear base.decoder_output
            testModel.base_model.embeddings.ws none)
          (TScalar.powNegHalf testModel.model_dim)) :=
  ⟨(t5_logits_scaling_law testModel none none none none none none none none
      none none none Cache.None false).1 cgOutFix rfl,
   (t5_logits_scaling_law testModel none none none none none none none none
      none none none Cache.None false).2.1 lmOutFix rfl⟩

/-- C3: the output's `encoder_hidden_state` is `None` exactly when a
precomputed `encoder_outputs` was supplied; when it was not, the encoder
stack's (single) run produces the hidden state returned in that field; and
when it was, the result does not depend on the encoder stack at all. -/
theorem t5_encoder_hidden_state_none_iff (self : T5Model)
    (input_ids attention_mask encoder_outputs decoder_input_ids
     decoder_attention_mask input_embeds decoder_input_embeds : Option Tensor)
    (old_layer_states : Option LayerCache) (train : Bool) :
    (∀ out, self.forward_t input_ids attention_mask encoder_outputs
        decoder_input_ids decoder_attention_mask input_embeds
        decoder_input_embeds old_layer_states train = Except.ok out →
      (out.encoder_hidden_state = none ↔ encoder_outputs.isSome))
    ∧ (encoder_outputs = none →
      ∀ out, self.forward_t input_ids attention_mask none decoder_input_ids
          decoder_attention_mask input_embeds decoder_input_embeds
          old_layer_states train = Except.ok out →
        ∃ encRes, self.encoder.forward_t input_ids attention_mask none none
            input_embeds self.embeddings none train = Except.ok encRes
          ∧ out.encoder_hidden_state = some encRes.hidden_state)
    ∧ (∀ (t : Tensor) (enc1 enc2 dec : T5Stack) (emb : Embedding),
      T5Model.forward_t ⟨enc1, dec, emb⟩ input_ids attention_mask (some t)
        decoder_input_ids decoder_attention_mask input_embeds
        decoder_input_embeds old_layer_states train
      = T5Model.forward_t ⟨enc2, dec, emb⟩ input_ids attention_mask (some t)
          decoder_input_ids decoder_attention_mask input_embeds
          decoder_input_embeds old_layer_states train) := by
  refine ⟨?_, ?_, fun t enc1 enc2 dec emb => rfl⟩
  · intro out h
    cases encoder_outputs with
    | some t =>
      rw [t5Model_forward_some] at h
      cases hd : self.decoder.forward_t decoder_input_ids
          decoder_attention_mask (some t) attention_mask decoder_input_embeds
          self.embeddings old_layer_states train with
      | error e => rw [hd] at h; exact absurd h (by simp)
      | ok d =>
        rw [hd] at h
        simp only [Except.ok.injEq] at h
        rw [← h]
        simp
    | none =>
      cases henc : self.encoder.forward_t input_ids attention_mask none none
          input_embeds self.embeddings none train with
      | error e =>
        rw [t5Model_forward_none, henc] at h
        exact absurd h (by simp)
      | ok o =>
        cases hdec : self.decoder.forward_t decoder_input_ids
            decoder_attention_mask (some o.hidden_state) attention_mask
            decoder_input_embeds self.embeddings old_layer_states train with
        | error e =>
          rw [t5Model_forward_none] at h
          rw [henc] at h
          simp only [hdec] at h
          exact absurd h (by simp)
        | ok d =>
          rw [t5Model_forward_none] at h
          rw [henc] at h
          simp only [hdec, Except.ok.injEq] at h
          rw [← h]
          simp
  · intro _ out h
    cases henc : self.encoder.forward_t input_ids attention_mask none none
        input_embeds self.embeddings none train with
    | error e =>
      rw [t5Model_forward_none, henc] at h
      exact absurd h (by simp)
    | ok o =>
      cases hdec : self.decoder.forward_t decoder_input_ids
          decoder_attention_mask (some o.hidden_state) attention_mask
          decoder_input_embeds self.embeddings old_layer_states train with
      | error e =>
        rw [t5Model_forward_none] at h
        rw [henc] at h
        simp only [hdec] at h
        exact absurd h (by simp)
      | ok d =>
        rw [t5Model_forward_none] at h
        rw [henc] at h
        simp only [hdec, Except.ok.injEq] at h
        exact ⟨o, rfl, by rw [← h]⟩

/-- Witness for C3: on `testModel`'s base model with no precomputed encoder
output, the output's `encoder_hidden_state` is the encoder's hidden state. -/
theorem t5_encoder_hidden_state_none_iff_witness :
    (baseOutFix.encoder_hidden_state = none ↔ (none : Option Tensor).isSome)
    ∧ (∃ encRes, testModel.base_model.encoder.forward_t none none none none
        none testModel.base_model.embeddings none false = Except.ok encRes
      ∧ baseOutFix.encoder_hidden_state = some encRes.hidden_state) :=
  ⟨(t5_encoder_hidden_state_none_iff testModel.base_model none none none
      none none none none none false).1 baseOutFix rfl,
   (t5_encoder_hidden_state_none_iff testModel.base_model none none none
      none none none none none false).2.1 rfl baseOutFix rfl⟩

/-- C4: encoder-output reuse is lossless: with training disabled, running
`encode` and then the base-model forward pass with its result as the
precomputed `encoder_outputs` yields the same decoder output as one
end-to-end forward call without a precomputed encoder output; and likewise
through the Conditional-Generation Head. -/
theorem t5_encode_reuse_lossless (self : T5ForConditionalGeneration)
    (input_ids : Tensor)
    (attention_mask decoder_input_ids decoder_attention_mask
     decoder_input_embeds : Option Tensor)
    (old_layer_states : Option LayerCache) :
    (∀ h out1 out2,
      self.encode input_ids attention_mask = Except.ok h →
      self.base_model.forward_t (some input_ids) attention_mask (some h)
        decoder_input_ids decoder_attention_mask none decoder_input_embeds
        old_layer_states false = Except.ok out1 →
      self.base_model.forward_t (some input_ids) attention_mask none
        decoder_input_ids decoder_attention_mask none decoder_input_embeds
        old_layer_states false = Except.ok out2 →
      out1.decoder_output = out2.decoder_output)
    ∧ (∀ h out1 out2,
      self.encode input_ids attention_mask = Except.ok h →
      self.forward_t (some input_ids) attention_mask (some h)
        decoder_input_ids decoder_attention_mask none decoder_input_embeds
        old_layer_states false = Except.ok out1 →
      self.forward_t (some input_ids) attention_mask none
        decoder_input_ids decoder_attention_mask none decoder_input_embeds
        old_layer_states false = Except.ok out2 →
      out1.decoder_output = out2.decoder_output) := by
  have key : ∀ h out1 out2,
      self.encode input_ids attention_mask = Except.ok h →
      self.base_model.forward_t (some input_ids) attention_mask (some h)
        decoder_input_ids decoder_attention_mask none decoder_input_embeds
        old_layer_states false = Except.ok out1 →
      self.base_model.forward_t (some input_ids) attention_mask none
        decoder_input_ids decoder_attention_mask none decoder_input_embeds
        old_layer_states false = Except.ok out2 →
      out1.decoder_output = out2.decoder_output := by
    intro h out1 out2 he h1 h2
    unfold T5ForConditionalGeneration.encode at he
    cases henc : self.base_model.encoder.forward_t (some input_ids)
        attention_mask none none none self.base_model.embeddings none
        false with
    | error e => rw [henc] at he; exact absurd he (by simp)
    | ok o =>
      rw [henc] at he
      simp only [Except.ok.injEq] at he
      subst he
      rw [t5Model_forward_some] at h1
      rw [t5Model_forward_none] at h2
      rw [henc] at h2
      cases hdec : self.base_model.decoder.forward_t decoder_input_ids
          decoder_attention_mask (some o.hidden_state) attention_mask
          decoder_input_embeds self.base_model.embeddings old_layer_states
          false with
      | error e =>
        rw [hdec] at h1
        exact absurd h1 (by simp)
      | ok d =>
        rw [hdec] at h1
        simp only [hdec, Except.ok.injEq] at h1 h2
        rw [← h1, ← h2]
  refine ⟨key, ?_⟩
  intro h out1 out2 he h1 h2
  rw [cgForward_eq] at h1 h2
  cases hb1 : self.base_model.forward_t (some input_ids) attention_mask
      (some h) decoder_input_ids decoder_attention_mask none
      decoder_input_embeds old_layer_states false with
  | error e => rw [hb1] at h1; exact absurd h1 (by simp [Except.map])
  | ok b1 =>
    cases hb2 : self.base_model.forward_t (some input_ids) attention_mask
        none decoder_input_ids decoder_attention_mask none
        decoder_input_embeds old_layer_states false with
    | error e => rw [hb2] at h2; exact absurd h2 (by simp [Except.map])
    | ok b2 =>
      rw [hb1] at h1
      rw [hb2] at h2
      simp only [Except.map, Except.ok.injEq] at h1 h2
      rw [← h1, ← h2]
      have hd : b1.decoder_output = b2.decoder_output :=
        key h b1 b2 he hb1 hb2
      simp [hd]

/-- Witness for C4: on `testModel`, reusing the encoded hidden state gives
the same decoder output as the end-to-end run. -/
theorem t5_encode_reuse_lossless_witness :
    baseOutFixPre.decoder_output = baseOutFix.decoder_output :=
  (t5_encode_reuse_lossless testModel (Tensor.raw 7) none none none none
      none).1 (Tensor.raw 1) baseOutFixPre baseOutFix rfl rfl rfl

/-- C6: the Conditional-Generation Head passes every output field other than
`decoder_output` through from the Base Model unchanged. -/
theorem t5_cg_frame (self : T5ForConditionalGeneration)
    (input_ids attention_mask encoder_outputs decoder_input_ids
     decoder_attention_mask input_embeds decoder_input_embeds : Option Tensor)
    (old_layer_states : Option LayerCache) (train : Bool) :
    ∀ base out,
      self.base_model.forward_t input_ids attention_mask encoder_outputs
        decoder_input_ids decoder_attention_mask input_embeds
        decoder_input_embeds old_layer_states train = Except.ok base →
      self.forward_t input_ids attention_mask encoder_outputs
        decoder_input_ids decoder_attention_mask input_embeds
        decoder_input_embeds old_layer_states train = Except.ok out →
      out.encoder_hidden_state = base.encoder_hidden_state
      ∧ out.next_cache = base.next_cache
      ∧ out.all_decoder_hidden_states = base.all_decoder_hidden_states
      ∧ out.all_decoder_attentions = base.all_decoder_attentions
      ∧ out.all_encoder_hidden_states = base.all_encoder_hidden_states
      ∧ out.all_encoder_attentions = base.all_encoder_attentions := by
  intro base out hb h
  rw [cgForward_eq, hb] at h
  simp only [Except.map, Except.ok.injEq] at h
  rw [← h]
  exact ⟨rfl, rfl, rfl, rfl, rfl, rfl⟩

/-- Witness for C6: on `testModel` all non-logits fields of the head output
equal the base-model output's fields. -/
theorem t5_cg_frame_witness :
    cgOutFix.encoder_hidden_state = baseOutFix.encoder_hidden_state
    ∧ cgOutFix.next_cache = baseOutFix.next_cache
    ∧ cgOutFix.all_decoder_hidden_states
        = baseOutFix.all_decoder_hidden_states
    ∧ cgOutFix.all_decoder_attentions = baseOutFix.all_decoder_attentions
    ∧ cgOutFix.all_encoder_hidden_states
        = baseOutFix.all_encoder_hidden_states
    ∧ cgOutFix.all_encoder_attentions = baseOutFix.all_encoder_attentions :=
  t5_cg_frame testModel none none none none none none none none false
    baseOutFix cgOutFix rfl rfl

/-- C8: every failure of an underlying stack call is propagated unchanged to
the caller of the top-level forward entry points — the base model propagates
encoder and decoder failures (for arbitrary either/or input arguments, with
no validation at this layer), the head propagates base-model failures, and
the adapter propagates them for both accepted cache variants. -/
theorem t5_error_propagation (self : T5Model)
    (cg : T5ForConditionalGeneration)
    (input_ids attention_mask encoder_outputs decoder_input_ids
     decoder_attention_mask input_embeds decoder_input_embeds
     tti posi ie : Option Tensor)
    (old_layer_states states : Option LayerCache) (train : Bool) :
    (∀ e, self.encoder.forward_t input_ids attention_mask none none
        input_embeds self.embeddings none train = Except.error e →
      self.forward_t input_ids attention_mask none decoder_input_ids
        decoder_attention_mask input_embeds decoder_input_embeds
        old_layer_states train = Except.error (Panic.unwrapErr e))
    ∧ (∀ e t, self.decoder.forward_t decoder_input_ids
        decoder_attention_mask (some t) attention_mask decoder_input_embeds
        self.embeddings old_layer_states train = Except.error e →
      self.forward_t input_ids attention_mask (some t) decoder_input_ids
        decoder_attention_mask input_embeds decoder_input_embeds
        old_layer_states train = Except.error (Panic.unwrapErr e))
    ∧ (∀ e o, self.encoder.forward_t input_ids attention_mask none none
        input_embeds self.embeddings none train = Except.ok o →
      self.decoder.forward_t decoder_input_ids decoder_attention_mask
        (some o.hidden_state) attention_mask decoder_input_embeds
        self.embeddings old_layer_states train = Except.error e →
      self.forward_t input_ids attention_mask none decoder_input_ids
        decoder_attention_mask input_embeds decoder_input_embeds
        old_layer_states train = Except.error (Panic.unwrapErr e))
    ∧ (∀ p, cg.base_model.forward_t input_ids attention_mask encoder_outputs
        decoder_input_ids decoder_attention_mask input_embeds
        decoder_input_embeds old_layer_states train = Except.error p →
      cg.forward_t input_ids attention_mask encoder_outputs
        decoder_input_ids decoder_attention_mask input_embeds
        decoder_input_embeds old_layer_states train = Except.error p)
    ∧ (∀ p, cg.base_model.forward_t input_ids attention_mask encoder_outputs
        decoder_input_ids none none none states train = Except.error p →
      LMHeadModel.forward_t cg input_ids (Cache.T5Cache states)
        attention_mask tti posi ie encoder_outputs decoder_input_ids train
        = Except.error (LMError.panicked p))
    ∧ (∀ p, cg.base_model.forward_t input_ids attention_mask encoder_outputs
        decoder_input_ids none none none none train = Except.error p →
      LMHeadModel.forward_t cg input_ids Cache.None attention_mask
        tti posi ie encoder_outputs decoder_input_ids train
        = Except.error (LMError.panicked p)) := by
  refine ⟨?_, ?_, ?_, ?_, ?_, ?_⟩
  · intro e he
    simp [t5Model_forward_none, he]
  · intro e t hd
    simp [t5Model_forward_some, hd]
  · intro e o he hd
    simp [t5Model_forward_none, he, hd]
  · intro p hp
    rw [cgForward_eq, hp]
    rfl
  · intro p hp
    rw [lmForward_t5cache_eq, hp]
    rfl
  · intro p hp
    rw [lmForward_nonecache_eq, hp]
    rfl

/-- Witness for C8: on `errModel`, whose stacks always fail, the base model
propagates the encoder failure as a panic and the adapter propagates it as a
panicked failure. -/
theorem t5_error_propagation_witness :
    errModel.base_model.forward_t none none none none none none none none
      false
      = Except.error (Panic.unwrapErr (RustBertError.ValueError
          "stack failure"))
    ∧ LMHeadModel.forward_t errModel none (Cache.T5Cache none) none none
        none none none none false
      = Except.error (LMError.panicked (Panic.unwrapErr
          (RustBertError.ValueError "stack failure"))) :=
  ⟨(t5_error_propagation errModel.base_model errModel none none none none
      none none none none none none none none false).1
    (RustBertError.ValueError "stack failure") rfl,
   (t5_error_propagation errModel.base_model errModel none none none none
      none none none none none none none none false).2.2.2.2.1
    (Panic.unwrapErr (RustBertError.ValueError "stack failure")) rfl⟩

end RustBert
